import Mathlib

/-!
Verification of the `ClientBase` readiness-waiting core of rclcpp
(`client.cpp`).

Shallow embedding of `src/rclcpp/src/rclcpp/client.cpp`:

* `service_is_ready` (lines 78-88): calls
  `rcl_service_server_is_available`, throws on a non-OK return code,
  otherwise returns the reported availability.
* `wait_for_service_nanoseconds` (lines 90-134): the timeout-aware wait
  loop combining the immediate readiness check, the `timeout == 0` early
  return, the clamp of `time_to_wait` to zero for positive timeouts, and
  the do-while loop that checks `rclcpp::ok()`, waits on the graph event,
  clears it, re-checks readiness, and recomputes the remaining budget.
* the custom deleter of `client_handle_` (lines 44-54): runs
  `rcl_client_fini`, and on failure logs, resets the rcl error state and
  deletes the heap allocation.

External collaborators (the rcl layer, `rclcpp::ok`, the steady clock,
the graph event) are modelled as oracles indexed by invocation count:
the k-th call of each primitive reads the k-th entry of the
corresponding oracle. Durations are `Int` nanoseconds. Since a negative
timeout with a never-ready endpoint loops forever, the loop takes a fuel
argument; a `none` outcome means the fuel was exhausted while the loop
was still running (the real loop would still be iterating).

The functions also produce a trace of observable events (`Ev`), in
program order, which lets us state the temporal claims (readiness is
re-checked after every wait episode, the shutdown flag is polled only at
the top of loop iterations, a query error aborts everything).
-/

/-- Result of one call of `rcl_service_server_is_available`:
the rcl return code (`ret_ok` = `RCL_RET_OK`) and the availability flag
written through the out-parameter. -/
structure RclAvail where
  ret_ok : Bool
  avail : Bool
deriving DecidableEq, Repr

/-- Exceptions that `wait_for_service_nanoseconds` can raise:
`InvalidNodeError` when the weak node-graph pointer cannot be locked
(line 97), and the error thrown by `throw_from_rcl_error` when
`rcl_service_server_is_available` fails (line 85). -/
inductive WErr where
  | invalidNode
  | discoveryQuery
deriving DecidableEq, Repr

/-- Observable events of one `wait_for_service_nanoseconds` call, in
program order: a poll of `rclcpp::ok()` and its result, a call of
`wait_for_graph_change` with the duration passed to it, the
`event->check_and_clear()` reset, and a readiness query with its result
(`none` means the query threw). -/
inductive Ev where
  | okCheck (b : Bool)
  | waitCall (d : Int)
  | clearEvent
  | readyCheck (r : Option Bool)
deriving DecidableEq, Repr

/-- The environment of one call: whether `node_graph_.lock()` succeeds,
and the oracles for the k-th invocation of
`rcl_service_server_is_available`, `rclcpp::ok()` and
`std::chrono::steady_clock::now()` (in nanoseconds). -/
structure Env where
  nodeAlive : Bool
  rclAvail : Nat → RclAvail
  rosOk : Nat → Bool
  clock : Nat → Int

/-- Embedding of `ClientBase::service_is_ready` (client.cpp lines
78-88): throws (`none`) when the rcl query does not return
`RCL_RET_OK`, otherwise returns the availability flag. -/
def service_is_ready (r : RclAvail) : Option Bool :=
  if r.ret_ok = false then none else some r.avail

/-- The do-while loop of `wait_for_service_nanoseconds` (client.cpp
lines 117-132). Arguments: remaining fuel, the current `time_to_wait`,
and the indices of the next `rclcpp::ok()`, readiness and clock oracle
entries to consume. Returns the event trace of the loop together with
`some (ok b)` for `return b`, `some (error e)` for a thrown exception,
or `none` when the fuel ran out with the loop still going. -/
def waitLoop (env : Env) (timeout start : Int) :
    Nat → Int → Nat → Nat → Nat → List Ev × Option (Except WErr Bool)
  | 0, _, _, _, _ => ([], none)
  | fuel + 1, ttw, oI, rI, cI =>
    if env.rosOk oI = false then
      ([Ev.okCheck false], some (Except.ok false))
    else
      match service_is_ready (env.rclAvail rI) with
      | none =>
        ([Ev.okCheck true, Ev.waitCall ttw, Ev.clearEvent, Ev.readyCheck none],
         some (Except.error WErr.discoveryQuery))
      | some true =>
        ([Ev.okCheck true, Ev.waitCall ttw, Ev.clearEvent, Ev.readyCheck (some true)],
         some (Except.ok true))
      | some false =>
        if timeout - (env.clock cI - start) > 0 ∨ timeout < 0 then
          (Ev.okCheck true :: Ev.waitCall ttw :: Ev.clearEvent ::
            Ev.readyCheck (some false) ::
            (waitLoop env timeout start fuel (timeout - (env.clock cI - start))
              (oI + 1) (rI + 1) (cI + 1)).1,
           (waitLoop env timeout start fuel (timeout - (env.clock cI - start))
              (oI + 1) (rI + 1) (cI + 1)).2)
        else
          ([Ev.okCheck true, Ev.waitCall ttw, Ev.clearEvent,
            Ev.readyCheck (some false)],
           some (Except.ok false))

/-- Embedding of `ClientBase::wait_for_service_nanoseconds`
(client.cpp lines 90-134). Clock call 0 is `start` (line 93), clock
call 1 the first
`time_to_wait` computation (line 110), clock calls 2, 3, ... the
recomputations at line 131. Readiness call 0 is the immediate check
(line 101); calls 1, 2, ... happen inside the loop (line 127). -/
def wait_for_service_nanoseconds (env : Env) (timeout : Int) (fuel : Nat) :
    List Ev × Option (Except WErr Bool) :=
  if env.nodeAlive = false then
    ([], some (Except.error WErr.invalidNode))
  else
    match service_is_ready (env.rclAvail 0) with
    | none => ([Ev.readyCheck none], some (Except.error WErr.discoveryQuery))
    | some true => ([Ev.readyCheck (some true)], some (Except.ok true))
    | some false =>
      if timeout = 0 then
        ([Ev.readyCheck (some false)], some (Except.ok false))
      else
        (Ev.readyCheck (some false) ::
          (waitLoop env timeout (env.clock 0) fuel
            (if timeout > 0 ∧ timeout - (env.clock 1 - env.clock 0) < 0 then 0
             else timeout - (env.clock 1 - env.clock 0)) 0 1 2).1,
         (waitLoop env timeout (env.clock 0) fuel
            (if timeout > 0 ∧ timeout - (env.clock 1 - env.clock 0) < 0 then 0
             else timeout - (env.clock 1 - env.clock 0)) 0 1 2).2)

/-- The custom deleter of `client_handle_` (client.cpp lines 44-54) as
the effect it has: whether it lets an exception escape, logs, calls
`rcl_reset_error`, and frees (`delete`s) the `rcl_client_t` allocation,
as a function of whether `rcl_client_fini` returned `RCL_RET_OK`.
Note that in the source the `delete client;` statement is inside the
failure branch of the `if`. -/
structure ReleaseEffect where
  threw : Bool
  logged : Bool
  errorCleared : Bool
  freed : Bool
deriving DecidableEq, Repr

def clientHandleDeleter (finiOk : Bool) : ReleaseEffect :=
  if finiOk then
    { threw := false, logged := false, errorCleared := false, freed := false }
  else
    { threw := false, logged := true, errorCleared := true, freed := true }

/-- Number of `wait_for_graph_change` invocations in a trace. -/
def waitCount (l : List Ev) : Nat :=
  l.countP fun e => match e with | Ev.waitCall _ => true | _ => false

/-- Number of readiness queries in a trace. -/
def checkCount (l : List Ev) : Nat :=
  l.countP fun e => match e with | Ev.readyCheck _ => true | _ => false

/-- Whether every `wait_for_graph_change` invocation in the trace is
immediately followed by an `event->check_and_clear()` and then by a
readiness query. -/
def waitsFollowed : List Ev → Bool
  | [] => true
  | Ev.waitCall _ :: rest =>
    match rest with
    | Ev.clearEvent :: Ev.readyCheck _ :: rest2 => waitsFollowed rest2
    | _ => false
  | _ :: rest => waitsFollowed rest

section Envs

/-- Environment whose endpoint is ready from the start. -/
def envReady : Env where
  nodeAlive := true
  rclAvail := fun _ => { ret_ok := true, avail := true }
  rosOk := fun _ => true
  clock := fun k => Int.ofNat k

/-- Environment whose endpoint is never ready and never shuts down. -/
def envNever : Env where
  nodeAlive := true
  rclAvail := fun _ => { ret_ok := true, avail := false }
  rosOk := fun _ => true
  clock := fun k => Int.ofNat k

/-- Environment that becomes ready at the second readiness query. -/
def envOnce : Env where
  nodeAlive := true
  rclAvail := fun k => { ret_ok := true, avail := decide (1 ≤ k) }
  rosOk := fun _ => true
  clock := fun k => Int.ofNat k

/-- Environment whose owning context has already been destroyed. -/
def envDead : Env where
  nodeAlive := false
  rclAvail := fun _ => { ret_ok := true, avail := false }
  rosOk := fun _ => true
  clock := fun k => Int.ofNat k

/-- Environment that is ready while `rclcpp::ok()` is already false. -/
def envShutReady : Env where
  nodeAlive := true
  rclAvail := fun _ => { ret_ok := true, avail := true }
  rosOk := fun _ => false
  clock := fun k => Int.ofNat k

/-- Environment where the immediate readiness check alone consumes the
whole timeout budget: the clock jumps from 0 to 100 between the
`start` reading and the first `time_to_wait` computation. -/
def envJump : Env where
  nodeAlive := true
  rclAvail := fun _ => { ret_ok := true, avail := false }
  rosOk := fun _ => true
  clock := fun k => if k = 0 then 0 else Int.ofNat (99 + k)

/-- Environment whose readiness query fails on its second invocation
(the first in-loop re-check). -/
def envErrLoop : Env where
  nodeAlive := true
  rclAvail := fun k => { ret_ok := decide (k = 0), avail := false }
  rosOk := fun _ => true
  clock := fun k => Int.ofNat k

/-- Environment that is never ready and whose shutdown signal flips on
at the third `rclcpp::ok()` poll. -/
def envShutAt2 : Env where
  nodeAlive := true
  rclAvail := fun _ => { ret_ok := true, avail := false }
  rosOk := fun k => decide (k < 2)
  clock := fun k => Int.ofNat k

end Envs

section StepLemmas

/-- Unfolding: out of fuel. -/
theorem waitLoop_zero (env : Env) (timeout start ttw : Int) (oI rI cI : Nat) :
    waitLoop env timeout start 0 ttw oI rI cI = ([], none) := rfl

/-- Unfolding: `rclcpp::ok()` is false at the top of the iteration
(client.cpp lines 118-120). -/
theorem waitLoop_shutdown (env : Env) (timeout start ttw : Int) (n oI rI cI : Nat)
    (h : env.rosOk oI = false) :
    waitLoop env timeout start (n + 1) ttw oI rI cI =
      ([Ev.okCheck false], some (Except.ok false)) := by
  rw [waitLoop, if_pos h]

/-- Unfolding: the in-loop readiness query throws (client.cpp line 127
via line 85). -/
theorem waitLoop_qerror (env : Env) (timeout start ttw : Int) (n oI rI cI : Nat)
    (h1 : env.rosOk oI = true) (h2 : service_is_ready (env.rclAvail rI) = none) :
    waitLoop env timeout start (n + 1) ttw oI rI cI =
      ([Ev.okCheck true, Ev.waitCall ttw, Ev.clearEvent, Ev.readyCheck none],
       some (Except.error WErr.discoveryQuery)) := by
  rw [waitLoop, if_neg (show ¬env.rosOk oI = false by simp [h1]), h2]

/-- Unfolding: the in-loop readiness query reports ready (client.cpp
lines 127-129). -/
theorem waitLoop_found (env : Env) (timeout start ttw : Int) (n oI rI cI : Nat)
    (h1 : env.rosOk oI = true) (h2 : service_is_ready (env.rclAvail rI) = some true) :
    waitLoop env timeout start (n + 1) ttw oI rI cI =
      ([Ev.okCheck true, Ev.waitCall ttw, Ev.clearEvent, Ev.readyCheck (some true)],
       some (Except.ok true)) := by
  rw [waitLoop, if_neg (show ¬env.rosOk oI = false by simp [h1]), h2]

/-- Unfolding: not ready and the do-while condition holds, so the loop
continues (client.cpp lines 131-132). -/
theorem waitLoop_cont (env : Env) (timeout start ttw : Int) (n oI rI cI : Nat)
    (h1 : env.rosOk oI = true) (h2 : service_is_ready (env.rclAvail rI) = some false)
    (h3 : timeout - (env.clock cI - start) > 0 ∨ timeout < 0) :
    waitLoop env timeout start (n + 1) ttw oI rI cI =
      (Ev.okCheck true :: Ev.waitCall ttw :: Ev.clearEvent ::
        Ev.readyCheck (some false) ::
        (waitLoop env timeout start n (timeout - (env.clock cI - start))
          (oI + 1) (rI + 1) (cI + 1)).1,
       (waitLoop env timeout start n (timeout - (env.clock cI - start))
          (oI + 1) (rI + 1) (cI + 1)).2) := by
  rw [waitLoop, if_neg (show ¬env.rosOk oI = false by simp [h1]), h2]
  dsimp only
  rw [if_pos h3]

/-- Unfolding: not ready and the do-while condition fails, so the loop
exits with `false` (client.cpp lines 132-133). -/
theorem waitLoop_exit (env : Env) (timeout start ttw : Int) (n oI rI cI : Nat)
    (h1 : env.rosOk oI = true) (h2 : service_is_ready (env.rclAvail rI) = some false)
    (h3 : ¬(timeout - (env.clock cI - start) > 0 ∨ timeout < 0)) :
    waitLoop env timeout start (n + 1) ttw oI rI cI =
      ([Ev.okCheck true, Ev.waitCall ttw, Ev.clearEvent, Ev.readyCheck (some false)],
       some (Except.ok false)) := by
  rw [waitLoop, if_neg (show ¬env.rosOk oI = false by simp [h1]), h2]
  dsimp only
  rw [if_neg h3]

/-- An `rclcpp::ok()` poll does not affect `waitsFollowed`. -/
theorem waitsFollowed_okCheck (b : Bool) (l : List Ev) :
    waitsFollowed (Ev.okCheck b :: l) = waitsFollowed l := rfl

/-- A readiness query does not affect `waitsFollowed`. -/
theorem waitsFollowed_readyCheck (r : Option Bool) (l : List Ev) :
    waitsFollowed (Ev.readyCheck r :: l) = waitsFollowed l := rfl

/-- A wait episode followed by a clear and a readiness query satisfies
`waitsFollowed` up to the rest of the trace. -/
theorem waitsFollowed_episode (d : Int) (r : Option Bool) (l : List Ev) :
    waitsFollowed (Ev.waitCall d :: Ev.clearEvent :: Ev.readyCheck r :: l) =
      waitsFollowed l := rfl

/-- Unfolding: the weak node-graph pointer is dead (client.cpp lines
95-98). -/
theorem wait_unfold_stale (env : Env) (timeout : Int) (fuel : Nat)
    (h : env.nodeAlive = false) :
    wait_for_service_nanoseconds env timeout fuel =
      ([], some (Except.error WErr.invalidNode)) := by
  rw [wait_for_service_nanoseconds, if_pos h]

/-- Unfolding: the immediate readiness query throws (client.cpp line
101 via line 85). -/
theorem wait_unfold_qerror (env : Env) (timeout : Int) (fuel : Nat)
    (h1 : env.nodeAlive = true) (h2 : service_is_ready (env.rclAvail 0) = none) :
    wait_for_service_nanoseconds env timeout fuel =
      ([Ev.readyCheck none], some (Except.error WErr.discoveryQuery)) := by
  rw [wait_for_service_nanoseconds,
    if_neg (show ¬env.nodeAlive = false by simp [h1]), h2]

/-- Unfolding: already ready at the immediate check (client.cpp lines
101-103). -/
theorem wait_unfold_ready (env : Env) (timeout : Int) (fuel : Nat)
    (h1 : env.nodeAlive = true) (h2 : service_is_ready (env.rclAvail 0) = some true) :
    wait_for_service_nanoseconds env timeout fuel =
      ([Ev.readyCheck (some true)], some (Except.ok true)) := by
  rw [wait_for_service_nanoseconds,
    if_neg (show ¬env.nodeAlive = false by simp [h1]), h2]

/-- Unfolding: not ready and `timeout == 0` (client.cpp lines
104-107). -/
theorem wait_unfold_snapshot (env : Env) (fuel : Nat)
    (h1 : env.nodeAlive = true) (h2 : service_is_ready (env.rclAvail 0) = some false) :
    wait_for_service_nanoseconds env 0 fuel =
      ([Ev.readyCheck (some false)], some (Except.ok false)) := by
  rw [wait_for_service_nanoseconds,
    if_neg (show ¬env.nodeAlive = false by simp [h1]), h2]
  dsimp only
  rw [if_pos rfl]

/-- Unfolding: not ready and a nonzero timeout, entering the do-while
loop with the possibly clamped first `time_to_wait` (client.cpp lines
110-117). -/
theorem wait_unfold_loop (env : Env) (timeout : Int) (fuel : Nat)
    (h1 : env.nodeAlive = true) (h2 : service_is_ready (env.rclAvail 0) = some false)
    (h3 : timeout ≠ 0) :
    wait_for_service_nanoseconds env timeout fuel =
      (Ev.readyCheck (some false) ::
        (waitLoop env timeout (env.clock 0) fuel
          (if timeout > 0 ∧ timeout - (env.clock 1 - env.clock 0) < 0 then 0
           else timeout - (env.clock 1 - env.clock 0)) 0 1 2).1,
       (waitLoop env timeout (env.clock 0) fuel
          (if timeout > 0 ∧ timeout - (env.clock 1 - env.clock 0) < 0 then 0
           else timeout - (env.clock 1 - env.clock 0)) 0 1 2).2) := by
  rw [wait_for_service_nanoseconds,
    if_neg (show ¬env.nodeAlive = false by simp [h1]), h2]
  dsimp only
  rw [if_neg h3]

end StepLemmas

section LoopInvariants

/-- In every loop trace, each wait episode is immediately followed by
the event clear and a readiness re-check. -/
theorem waitLoop_waitsFollowed (env : Env) (timeout start : Int) :
    ∀ (fuel : Nat) (ttw : Int) (oI rI cI : Nat),
      waitsFollowed (waitLoop env timeout start fuel ttw oI rI cI).1 = true := by
  intro fuel
  induction fuel with
  | zero =>
    intro ttw oI rI cI
    rw [waitLoop_zero]
    rfl
  | succ n ih =>
    intro ttw oI rI cI
    rcases hok : env.rosOk oI with _ | _
    · rw [waitLoop_shutdown env timeout start ttw n oI rI cI hok]
      rfl
    · rcases hr : service_is_ready (env.rclAvail rI) with _ | b
      · rw [waitLoop_qerror env timeout start ttw n oI rI cI hok hr]
        rfl
      · cases b
        · by_cases h3 : timeout - (env.clock cI - start) > 0 ∨ timeout < 0
          · rw [waitLoop_cont env timeout start ttw n oI rI cI hok hr h3]
            rw [waitsFollowed_okCheck, waitsFollowed_episode]
            exact ih _ _ _ _
          · rw [waitLoop_exit env timeout start ttw n oI rI cI hok hr h3]
            rfl
        · rw [waitLoop_found env timeout start ttw n oI rI cI hok hr]
          rfl

/-- If the loop returns `true`, its trace ends with a readiness query
that reported ready. -/
theorem waitLoop_true_last (env : Env) (timeout start : Int) :
    ∀ (fuel : Nat) (ttw : Int) (oI rI cI : Nat),
      (waitLoop env timeout start fuel ttw oI rI cI).2 = some (Except.ok true) →
      ∃ pre, (waitLoop env timeout start fuel ttw oI rI cI).1 =
        pre ++ [Ev.readyCheck (some true)] := by
  intro fuel
  induction fuel with
  | zero =>
    intro ttw oI rI cI h
    rw [waitLoop_zero] at h
    exact absurd h (by simp)
  | succ n ih =>
    intro ttw oI rI cI h
    rcases hok : env.rosOk oI with _ | _
    · rw [waitLoop_shutdown env timeout start ttw n oI rI cI hok] at h
      exact absurd h (by simp)
    · rcases hr : service_is_ready (env.rclAvail rI) with _ | b
      · rw [waitLoop_qerror env timeout start ttw n oI rI cI hok hr] at h
        exact absurd h (by simp)
      · cases b
        · by_cases h3 : timeout - (env.clock cI - start) > 0 ∨ timeout < 0
          · rw [waitLoop_cont env timeout start ttw n oI rI cI hok hr h3] at h ⊢
            obtain ⟨pre, hpre⟩ := ih _ _ _ _ h
            exact ⟨Ev.okCheck true :: Ev.waitCall ttw :: Ev.clearEvent ::
              Ev.readyCheck (some false) :: pre, by simp [hpre]⟩
          · rw [waitLoop_exit env timeout start ttw n oI rI cI hok hr h3] at h
            exact absurd h (by simp)
        · rw [waitLoop_found env timeout start ttw n oI rI cI hok hr]
          exact ⟨[Ev.okCheck true, Ev.waitCall ttw, Ev.clearEvent], rfl⟩

/-- If a readiness query fails inside the loop, the loop aborts with
the discovery error and the failed query is the final trace event. -/
theorem waitLoop_error_terminal (env : Env) (timeout start : Int) :
    ∀ (fuel : Nat) (ttw : Int) (oI rI cI : Nat),
      Ev.readyCheck none ∈ (waitLoop env timeout start fuel ttw oI rI cI).1 →
      (waitLoop env timeout start fuel ttw oI rI cI).2 =
        some (Except.error WErr.discoveryQuery) ∧
      ∃ pre, (waitLoop env timeout start fuel ttw oI rI cI).1 =
        pre ++ [Ev.readyCheck none] := by
  intro fuel
  induction fuel with
  | zero =>
    intro ttw oI rI cI h
    rw [waitLoop_zero] at h
    exact absurd h (by simp)
  | succ n ih =>
    intro ttw oI rI cI h
    rcases hok : env.rosOk oI with _ | _
    · rw [waitLoop_shutdown env timeout start ttw n oI rI cI hok] at h
      exact absurd h (by simp)
    · rcases hr : service_is_ready (env.rclAvail rI) with _ | b
      · rw [waitLoop_qerror env timeout start ttw n oI rI cI hok hr]
        exact ⟨rfl, ⟨[Ev.okCheck true, Ev.waitCall ttw, Ev.clearEvent], rfl⟩⟩
      · cases b
        · by_cases h3 : timeout - (env.clock cI - start) > 0 ∨ timeout < 0
          · rw [waitLoop_cont env timeout start ttw n oI rI cI hok hr h3] at h ⊢
            simp only [List.mem_cons] at h
            rcases h with h | h | h | h | h
            · exact absurd h (by simp)
            · exact absurd h (by simp)
            · exact absurd h (by simp)
            · exact absurd h (by simp)
            · obtain ⟨h2, pre, hpre⟩ := ih _ _ _ _ h
              exact ⟨h2, ⟨Ev.okCheck true :: Ev.waitCall ttw :: Ev.clearEvent ::
                Ev.readyCheck (some false) :: pre, by simp [hpre]⟩⟩
          · rw [waitLoop_exit env timeout start ttw n oI rI cI hok hr h3] at h
            exact absurd h (by simp)
        · rw [waitLoop_found env timeout start ttw n oI rI cI hok hr] at h
          exact absurd h (by simp)

/-- With a negative timeout, a never-ready endpoint and no shutdown,
the loop never terminates on its own: every fuel bound is exhausted. -/
theorem waitLoop_neg_never_none (env : Env) (timeout start : Int)
    (ht : timeout < 0)
    (hReady : ∀ k, service_is_ready (env.rclAvail k) = some false)
    (hOk : ∀ k, env.rosOk k = true) :
    ∀ (fuel : Nat) (ttw : Int) (oI rI cI : Nat),
      (waitLoop env timeout start fuel ttw oI rI cI).2 = none := by
  intro fuel
  induction fuel with
  | zero =>
    intro ttw oI rI cI
    rw [waitLoop_zero]
  | succ n ih =>
    intro ttw oI rI cI
    rw [waitLoop_cont env timeout start ttw n oI rI cI (hOk oI) (hReady rI) (Or.inr ht)]
    exact ih _ _ _ _

/-- With a negative timeout and a never-ready endpoint, a `false`
return can only come from an `rclcpp::ok()` poll that reported
shutdown. -/
theorem waitLoop_false_shutdown (env : Env) (timeout start : Int)
    (ht : timeout < 0)
    (hReady : ∀ k, service_is_ready (env.rclAvail k) = some false) :
    ∀ (fuel : Nat) (ttw : Int) (oI rI cI : Nat),
      (waitLoop env timeout start fuel ttw oI rI cI).2 = some (Except.ok false) →
      ∃ k, env.rosOk k = false := by
  intro fuel
  induction fuel with
  | zero =>
    intro ttw oI rI cI h
    rw [waitLoop_zero] at h
    exact absurd h (by simp)
  | succ n ih =>
    intro ttw oI rI cI h
    rcases hok : env.rosOk oI with _ | _
    · exact ⟨oI, hok⟩
    · rw [waitLoop_cont env timeout start ttw n oI rI cI hok (hReady rI) (Or.inr ht)] at h
      exact ih _ _ _ _ h

/-- With a negative timeout and a never-ready endpoint, a shutdown
signal that becomes active at the j-th `rclcpp::ok()` poll of the loop
forces a `false` return, provided the fuel bound lets the loop reach
that poll. -/
theorem waitLoop_shutdown_false (env : Env) (timeout start : Int)
    (ht : timeout < 0)
    (hReady : ∀ k, service_is_ready (env.rclAvail k) = some false) :
    ∀ (j fuel : Nat) (ttw : Int) (oI rI cI : Nat),
      j < fuel →
      env.rosOk (oI + j) = false →
      (waitLoop env timeout start fuel ttw oI rI cI).2 =
        some (Except.ok false) := by
  intro j
  induction j with
  | zero =>
    intro fuel ttw oI rI cI hj hk
    obtain ⟨n, rfl⟩ : ∃ n, fuel = n + 1 := ⟨fuel - 1, by omega⟩
    rw [waitLoop_shutdown env timeout start ttw n oI rI cI hk]
  | succ m ih =>
    intro fuel ttw oI rI cI hj hk
    obtain ⟨n, rfl⟩ : ∃ n, fuel = n + 1 := ⟨fuel - 1, by omega⟩
    rcases hok : env.rosOk oI with _ | _
    · rw [waitLoop_shutdown env timeout start ttw n oI rI cI hok]
    · rw [waitLoop_cont env timeout start ttw n oI rI cI hok (hReady rI) (Or.inr ht)]
      refine ih n _ (oI + 1) (rI + 1) (cI + 1) (by omega) ?_
      have harith : oI + 1 + m = oI + (m + 1) := by omega
      rw [harith]
      exact hk

/-- With a negative timeout and a monotone clock, every duration handed
to `wait_for_graph_change` inside the loop stays negative (no clamping
ever happens for negative timeouts). -/
theorem waitLoop_neg_durations (env : Env) (timeout start : Int)
    (ht : timeout < 0)
    (hClock : ∀ k, start ≤ env.clock k) :
    ∀ (fuel : Nat) (ttw : Int) (oI rI cI : Nat), ttw < 0 →
      ∀ d, Ev.waitCall d ∈ (waitLoop env timeout start fuel ttw oI rI cI).1 →
      d < 0 := by
  intro fuel
  induction fuel with
  | zero =>
    intro ttw oI rI cI httw d h
    rw [waitLoop_zero] at h
    exact absurd h (by simp)
  | succ n ih =>
    intro ttw oI rI cI httw d h
    have hnext : timeout - (env.clock cI - start) < 0 := by
      have := hClock cI
      omega
    rcases hok : env.rosOk oI with _ | _
    · rw [waitLoop_shutdown env timeout start ttw n oI rI cI hok] at h
      exact absurd h (by simp)
    · rcases hr : service_is_ready (env.rclAvail rI) with _ | b
      · rw [waitLoop_qerror env timeout start ttw n oI rI cI hok hr] at h
        simp only [List.mem_cons] at h
        rcases h with h | h | h | h | h
        · exact absurd h (by simp)
        · rw [Ev.waitCall.injEq] at h
          omega
        · exact absurd h (by simp)
        · exact absurd h (by simp)
        · exact absurd h (by simp)
      · cases b
        · rw [waitLoop_cont env timeout start ttw n oI rI cI hok hr (Or.inr ht)] at h
          simp only [List.mem_cons] at h
          rcases h with h | h | h | h | h
          · exact absurd h (by simp)
          · rw [Ev.waitCall.injEq] at h
            omega
          · exact absurd h (by simp)
          · exact absurd h (by simp)
          · exact ih _ _ _ _ hnext d h
        · rw [waitLoop_found env timeout start ttw n oI rI cI hok hr] at h
          simp only [List.mem_cons] at h
          rcases h with h | h | h | h | h
          · exact absurd h (by simp)
          · rw [Ev.waitCall.injEq] at h
            omega
          · exact absurd h (by simp)
          · exact absurd h (by simp)
          · exact absurd h (by simp)

end LoopInvariants

/-- C2: an endpoint already ready at call time makes
`wait_for_service_nanoseconds` return `true` for every timeout value
with zero `wait_for_graph_change` invocations. -/
theorem wait_fast_path_ready (env : Env) (timeout : Int) (fuel : Nat)
    (hAlive : env.nodeAlive = true)
    (hReady : service_is_ready (env.rclAvail 0) = some true) :
    (wait_for_service_nanoseconds env timeout fuel).2 = some (Except.ok true) ∧
    waitCount (wait_for_service_nanoseconds env timeout fuel).1 = 0 := by
  rw [wait_unfold_ready env timeout fuel hAlive hReady]
  exact ⟨rfl, rfl⟩

theorem wait_fast_path_ready_witness :
    (wait_for_service_nanoseconds envReady (-5) 2).2 = some (Except.ok true) ∧
    waitCount (wait_for_service_nanoseconds envReady (-5) 2).1 = 0 :=
  wait_fast_path_ready envReady (-5) 2 rfl rfl

/-- C5: on a not-ready endpoint, a zero timeout returns `false` right
after the single immediate readiness check, with no wait invocation. -/
theorem wait_zero_timeout_snapshot (env : Env) (fuel : Nat)
    (hAlive : env.nodeAlive = true)
    (hReady : service_is_ready (env.rclAvail 0) = some false) :
    (wait_for_service_nanoseconds env 0 fuel).2 = some (Except.ok false) ∧
    waitCount (wait_for_service_nanoseconds env 0 fuel).1 = 0 ∧
    checkCount (wait_for_service_nanoseconds env 0 fuel).1 = 1 := by
  rw [wait_unfold_snapshot env fuel hAlive hReady]
  exact ⟨rfl, rfl, rfl⟩

theorem wait_zero_timeout_snapshot_witness :
    (wait_for_service_nanoseconds envNever 0 2).2 = some (Except.ok false) ∧
    waitCount (wait_for_service_nanoseconds envNever 0 2).1 = 0 ∧
    checkCount (wait_for_service_nanoseconds envNever 0 2).1 = 1 :=
  wait_zero_timeout_snapshot envNever 2 rfl rfl

/-- C8: when the weak node-graph reference is dead the call fails with
`InvalidNodeError` before any readiness check or wait episode, for
every timeout. -/
theorem wait_stale_context_error (env : Env) (timeout : Int) (fuel : Nat)
    (hDead : env.nodeAlive = false) :
    (wait_for_service_nanoseconds env timeout fuel).2 =
      some (Except.error WErr.invalidNode) ∧
    (wait_for_service_nanoseconds env timeout fuel).1 = [] := by
  rw [wait_unfold_stale env timeout fuel hDead]
  exact ⟨rfl, rfl⟩

theorem wait_stale_context_error_witness :
    (wait_for_service_nanoseconds envDead 7 2).2 =
      some (Except.error WErr.invalidNode) ∧
    (wait_for_service_nanoseconds envDead 7 2).1 = [] :=
  wait_stale_context_error envDead 7 2 rfl

/-- C10: a shutdown signal that is already active at call time does not
suppress the fast path: if the endpoint is ready at the immediate
check, `true` is returned and `rclcpp::ok()` is never consulted. -/
theorem wait_shutdown_not_checked_before_fast_path (env : Env) (timeout : Int)
    (fuel : Nat)
    (hAlive : env.nodeAlive = true)
    (hShutdown : env.rosOk 0 = false)
    (hReady : service_is_ready (env.rclAvail 0) = some true) :
    (wait_for_service_nanoseconds env timeout fuel).2 = some (Except.ok true) ∧
    ∀ b, Ev.okCheck b ∉ (wait_for_service_nanoseconds env timeout fuel).1 := by
  rw [wait_unfold_ready env timeout fuel hAlive hReady]
  refine ⟨rfl, ?_⟩
  intro b
  simp

theorem wait_shutdown_not_checked_before_fast_path_witness :
    (wait_for_service_nanoseconds envShutReady 4 2).2 = some (Except.ok true) ∧
    ∀ b, Ev.okCheck b ∉ (wait_for_service_nanoseconds envShutReady 4 2).1 :=
  wait_shutdown_not_checked_before_fast_path envShutReady 4 2 rfl rfl rfl

/-- C3 (code evaluation): the handle deleter never lets an exception
escape, and on `rcl_client_fini` failure it logs, resets the error
state and frees the allocation; but on *successful* finalization it
does not free the allocation, because `delete client;` sits inside the
failure branch. -/
theorem clientHandleDeleter_success_leak :
    (clientHandleDeleter true).threw = false ∧
    (clientHandleDeleter false).threw = false ∧
    (clientHandleDeleter false).logged = true ∧
    (clientHandleDeleter false).errorCleared = true ∧
    (clientHandleDeleter false).freed = true ∧
    (clientHandleDeleter true).freed = false := by
  decide

/-- C1: in every execution, each wait episode is immediately followed
by the unconditional event clear and a direct readiness re-check, and
a `true` return always ends with a readiness check that reported ready
after the last wait episode. -/
theorem wait_recheck_after_every_wait (env : Env) (timeout : Int) (fuel : Nat) :
    waitsFollowed (wait_for_service_nanoseconds env timeout fuel).1 = true ∧
    ((wait_for_service_nanoseconds env timeout fuel).2 = some (Except.ok true) →
      ∃ pre, (wait_for_service_nanoseconds env timeout fuel).1 =
        pre ++ [Ev.readyCheck (some true)]) := by
  rcases hAlive : env.nodeAlive with _ | _
  · rw [wait_unfold_stale env timeout fuel hAlive]
    exact ⟨rfl, by simp⟩
  · rcases hr : service_is_ready (env.rclAvail 0) with _ | b
    · rw [wait_unfold_qerror env timeout fuel hAlive hr]
      exact ⟨rfl, by simp⟩
    · cases b
      · by_cases h0 : timeout = 0
        · subst h0
          rw [wait_unfold_snapshot env fuel hAlive hr]
          exact ⟨rfl, by simp⟩
        · rw [wait_unfold_loop env timeout fuel hAlive hr h0]
          constructor
          · dsimp only
            rw [waitsFollowed_readyCheck]
            exact waitLoop_waitsFollowed env timeout (env.clock 0) fuel _ 0 1 2
          · intro h
            obtain ⟨pre, hpre⟩ :=
              waitLoop_true_last env timeout (env.clock 0) fuel _ 0 1 2 h
            refine ⟨Ev.readyCheck (some false) :: pre, ?_⟩
            dsimp only
            rw [hpre]
            rfl
      · rw [wait_unfold_ready env timeout fuel hAlive hr]
        exact ⟨rfl, fun _ => ⟨[], rfl⟩⟩

theorem wait_recheck_after_every_wait_witness :
    waitsFollowed (wait_for_service_nanoseconds envOnce (-1) 3).1 = true ∧
    ∃ pre, (wait_for_service_nanoseconds envOnce (-1) 3).1 =
      pre ++ [Ev.readyCheck (some true)] :=
  ⟨(wait_recheck_after_every_wait envOnce (-1) 3).1,
   (wait_recheck_after_every_wait envOnce (-1) 3).2 rfl⟩

/-- C7: if any readiness query fails — immediate or in-loop — the call
raises the discovery error at that point; the failed query is the last
observable event, so no further wait episodes or readiness checks are
performed. -/
theorem wait_query_error_aborts (env : Env) (timeout : Int) (fuel : Nat) :
    Ev.readyCheck none ∈ (wait_for_service_nanoseconds env timeout fuel).1 →
    (wait_for_service_nanoseconds env timeout fuel).2 =
      some (Except.error WErr.discoveryQuery) ∧
    ∃ pre, (wait_for_service_nanoseconds env timeout fuel).1 =
      pre ++ [Ev.readyCheck none] := by
  intro h
  rcases hAlive : env.nodeAlive with _ | _
  · rw [wait_unfold_stale env timeout fuel hAlive] at h
    exact absurd h (by simp)
  · rcases hr : service_is_ready (env.rclAvail 0) with _ | b
    · rw [wait_unfold_qerror env timeout fuel hAlive hr]
      exact ⟨rfl, ⟨[], rfl⟩⟩
    · cases b
      · by_cases h0 : timeout = 0
        · subst h0
          rw [wait_unfold_snapshot env fuel hAlive hr] at h
          exact absurd h (by simp)
        · rw [wait_unfold_loop env timeout fuel hAlive hr h0] at h ⊢
          dsimp only at h
          simp only [List.mem_cons] at h
          rcases h with h | h
          · exact absurd h (by simp)
          · obtain ⟨h2, pre, hpre⟩ :=
              waitLoop_error_terminal env timeout (env.clock 0) fuel _ 0 1 2 h
            refine ⟨h2, ⟨Ev.readyCheck (some false) :: pre, ?_⟩⟩
            dsimp only
            rw [hpre]
            rfl
      · rw [wait_unfold_ready env timeout fuel hAlive hr] at h
        exact absurd h (by simp)

theorem wait_query_error_aborts_witness :
    (wait_for_service_nanoseconds envErrLoop (-1) 3).2 =
      some (Except.error WErr.discoveryQuery) ∧
    ∃ pre, (wait_for_service_nanoseconds envErrLoop (-1) 3).1 =
      pre ++ [Ev.readyCheck none] :=
  wait_query_error_aborts envErrLoop (-1) 3 (by decide)

/-- C9: with a negative timeout (and a monotone clock), every duration
handed to `wait_for_graph_change` is the un-clamped negative remainder,
i.e. strictly negative on every iteration — the unbounded-wait
treatment. -/
theorem wait_negative_timeout_unclamped (env : Env) (timeout : Int) (fuel : Nat)
    (ht : timeout < 0)
    (hClock : ∀ k, env.clock 0 ≤ env.clock k) :
    ∀ d, Ev.waitCall d ∈ (wait_for_service_nanoseconds env timeout fuel).1 →
      d < 0 := by
  intro d h
  rcases hAlive : env.nodeAlive with _ | _
  · rw [wait_unfold_stale env timeout fuel hAlive] at h
    exact absurd h (by simp)
  · rcases hr : service_is_ready (env.rclAvail 0) with _ | b
    · rw [wait_unfold_qerror env timeout fuel hAlive hr] at h
      exact absurd h (by simp)
    · cases b
      · rw [wait_unfold_loop env timeout fuel hAlive hr (by omega)] at h
        dsimp only at h
        simp only [List.mem_cons] at h
        rcases h with h | h
        · exact absurd h (by simp)
        · have harg : (if timeout > 0 ∧ timeout - (env.clock 1 - env.clock 0) < 0
              then 0 else timeout - (env.clock 1 - env.clock 0)) < 0 := by
            rw [if_neg (by omega)]
            have := hClock 1
            omega
          exact waitLoop_neg_durations env timeout (env.clock 0) ht hClock
            fuel _ 0 1 2 harg d h
      · rw [wait_unfold_ready env timeout fuel hAlive hr] at h
        exact absurd h (by simp)

theorem wait_negative_timeout_unclamped_witness : (-2 : Int) < 0 :=
  wait_negative_timeout_unclamped envNever (-1) 3 (by decide)
    (fun k => Int.ofNat_le.mpr (Nat.zero_le k)) (-2) (by decide)

/-- C6: with a negative timeout on an endpoint that never becomes
ready (and whose query never errors), the call returns `false` exactly
when the shutdown signal becomes active: if shutdown never occurs, no
fuel bound suffices for the loop to exit on its own; a `false` return
implies some `rclcpp::ok()` poll reported shutdown; and a shutdown at
any poll the loop can reach forces the `false` return. -/
theorem wait_negative_timeout_shutdown_only (env : Env) (timeout : Int) (fuel : Nat)
    (hAlive : env.nodeAlive = true)
    (ht : timeout < 0)
    (hReady : ∀ k, service_is_ready (env.rclAvail k) = some false) :
    ((∀ k, env.rosOk k = true) →
      (wait_for_service_nanoseconds env timeout fuel).2 = none) ∧
    ((wait_for_service_nanoseconds env timeout fuel).2 = some (Except.ok false) →
      ∃ k, env.rosOk k = false) ∧
    (∀ k, env.rosOk k = false → k < fuel →
      (wait_for_service_nanoseconds env timeout fuel).2 =
        some (Except.ok false)) := by
  rw [wait_unfold_loop env timeout fuel hAlive (hReady 0) (by omega)]
  refine ⟨?_, ?_, ?_⟩
  · intro hOk
    exact waitLoop_neg_never_none env timeout (env.clock 0) ht hReady hOk fuel _ 0 1 2
  · intro h
    exact waitLoop_false_shutdown env timeout (env.clock 0) ht hReady fuel _ 0 1 2 h
  · intro k hk hfuel
    refine waitLoop_shutdown_false env timeout (env.clock 0) ht hReady k fuel _ 0 1 2
      hfuel ?_
    rw [Nat.zero_add]
    exact hk

theorem wait_negative_timeout_shutdown_only_witness :
    (wait_for_service_nanoseconds envNever (-1) 3).2 = none ∧
    (wait_for_service_nanoseconds envShutAt2 (-1) 5).2 =
      some (Except.ok false) :=
  ⟨(wait_negative_timeout_shutdown_only envNever (-1) 3 rfl (by decide)
      (fun k => rfl)).1 (fun k => rfl),
   (wait_negative_timeout_shutdown_only envShutAt2 (-1) 5 rfl (by decide)
      (fun k => rfl)).2.2 2 (by decide) (by decide)⟩

/-- C4: when the timeout is strictly positive but the remaining budget
computed after the immediate check is already negative, it is clamped
to zero and the do-while body runs exactly one more pass: one
non-blocking wait (duration 0) and one readiness re-check, after which
the call exits. -/
theorem wait_clamp_one_extra_pass (env : Env) (timeout : Int) (fuel : Nat)
    (hAlive : env.nodeAlive = true)
    (hReady0 : service_is_ready (env.rclAvail 0) = some false)
    (hOk : env.rosOk 0 = true)
    (ht : 0 < timeout)
    (hneg : timeout - (env.clock 1 - env.clock 0) < 0)
    (hmono : env.clock 1 ≤ env.clock 2) :
    waitCount (wait_for_service_nanoseconds env timeout (fuel + 1)).1 = 1 ∧
    Ev.waitCall 0 ∈ (wait_for_service_nanoseconds env timeout (fuel + 1)).1 ∧
    checkCount (wait_for_service_nanoseconds env timeout (fuel + 1)).1 = 2 ∧
    ((wait_for_service_nanoseconds env timeout (fuel + 1)).2).isSome = true := by
  rw [wait_unfold_loop env timeout (fuel + 1) hAlive hReady0 (by omega)]
  rw [if_pos ⟨ht, hneg⟩]
  rcases hr1 : service_is_ready (env.rclAvail 1) with _ | b
  · rw [waitLoop_qerror env timeout (env.clock 0) 0 fuel 0 1 2 hOk hr1]
    exact ⟨rfl, by simp, rfl, rfl⟩
  · cases b
    · have h3 : ¬(timeout - (env.clock 2 - env.clock 0) > 0 ∨ timeout < 0) := by
        push_neg
        omega
      rw [waitLoop_exit env timeout (env.clock 0) 0 fuel 0 1 2 hOk hr1 h3]
      exact ⟨rfl, by simp, rfl, rfl⟩
    · rw [waitLoop_found env timeout (env.clock 0) 0 fuel 0 1 2 hOk hr1]
      exact ⟨rfl, by simp, rfl, rfl⟩

theorem wait_clamp_one_extra_pass_witness :
    waitCount (wait_for_service_nanoseconds envJump 5 1).1 = 1 ∧
    Ev.waitCall 0 ∈ (wait_for_service_nanoseconds envJump 5 1).1 ∧
    checkCount (wait_for_service_nanoseconds envJump 5 1).1 = 2 ∧
    ((wait_for_service_nanoseconds envJump 5 1).2).isSome = true :=
  wait_clamp_one_extra_pass envJump 5 0 rfl rfl rfl (by decide) (by decide)
    (by decide)
